import Mathlib

/-!
Verification of the note-book-backend HTTP server.

The repository contains two Express servers:
* `src/unnamed/part_000` (second document): the authenticated server — Firebase
  bearer-token middleware plus CRUD routes on the `notes` and `folders` MongoDB
  collections, every store call filtered by `userId`.
* `src/index.js`: an earlier, open server — `GET /notes`, `GET /notes/:id`,
  `GET /folders` with no authentication middleware and no owner constraint.

The embedding below translates the route handlers and the middleware directly
from that source.  The two external collaborators (MongoDB and the Firebase
verifier) are modelled by their documented interfaces: MongoDB's
`findOne` / `find` / `insertOne` / `updateOne` / `deleteOne` primitives over
flat documents, with `new ObjectId(string)` accepting exactly 24-character
hexadecimal strings, and the verifier as an opaque function from token to
optional subject id.
-/

set_option autoImplicit false

namespace NoteBook

/-- A hex digit character for a value `n < 16`: `0`–`9` then `a`–`f`
(lowercase, as MongoDB ObjectId hex strings are canonically lowercase). -/
def hexChar (n : Nat) : Char :=
  if n < 10 then Char.ofNat (48 + n) else Char.ofNat (87 + n)

/-- A character is a hexadecimal digit (`0-9`, `a-f`, `A-F`); this is the
character class accepted by the bson `ObjectId` string constructor. -/
def isHexDigit (c : Char) : Bool :=
  (('0' ≤ c && c ≤ '9') || ('a' ≤ c && c ≤ 'f') || ('A' ≤ c && c ≤ 'F'))

/-- `hexDigitsAux fuel n` is the list of exactly `fuel` hex digits of `n`,
least significant first (leading zeros included). -/
def hexDigitsAux : Nat → Nat → List Char
  | 0, _ => []
  | fuel + 1, n => hexChar (n % 16) :: hexDigitsAux fuel (n / 16)

/-- A MongoDB ObjectId, represented by its canonical (lowercase) 24-character
hex string. -/
structure ObjectId where
  hex : String
deriving DecidableEq, Repr

/-- Lowercasing a string, character by character (the bson `ObjectId`
constructor accepts mixed-case hex but stores canonical lowercase bytes). -/
def strToLower (s : String) : String :=
  String.mk (s.data.map Char.toLower)

/-- The validity check performed by `new ObjectId(string)` in the bson
library: the string must be exactly 24 hexadecimal characters. -/
def isValidObjectIdString (s : String) : Bool :=
  s.data.length == 24 && s.data.all isHexDigit

/-- `new ObjectId(id)` from the route handlers: returns the parsed id, or
`none` when the constructor would throw (id not a 24-char hex string).
Comparison of ObjectIds is on the underlying bytes, hence the lowercase
normalisation. -/
def parseObjectId (s : String) : Option ObjectId :=
  if isValidObjectIdString s then some ⟨strToLower s⟩ else none

/-- `genId n`: the fresh ObjectId the MongoDB driver assigns to the `n`-th
inserted document that carries no `_id` — modelled as the 24-hex-digit
encoding of a counter.  Only its shape (a valid canonical id string) and
the freshness assumptions stated at use sites matter to the theorems. -/
def genId (n : Nat) : ObjectId :=
  ⟨String.mk (hexDigitsAux 24 n).reverse⟩

/-- A BSON value as far as this backend distinguishes them: an ObjectId
(stored `_id`s assigned by the driver) or an opaque scalar coming from the
JSON request body, represented by its string rendering.  A BSON ObjectId
never equals a JSON scalar, matching BSON comparison. -/
inductive BVal where
  | oid : ObjectId → BVal
  | str : String → BVal
deriving DecidableEq, Repr

/-- A flat document: an association list from field names to values.  The
first binding of a key is its value. -/
abbrev Doc := List (String × BVal)

/-- Field lookup: value of the first binding of `key`. -/
def dGet : Doc → String → Option BVal
  | [], _ => none
  | (k, v) :: rest, key => if k = key then some v else dGet rest key

/-- Set field `k` to `v` (JS object-spread override `{...d, k: v}` and the
MongoDB `$set` of a single field agree on the resulting key/value map). -/
def setKey (d : Doc) (k : String) (v : BVal) : Doc :=
  d.filter (fun p => p.1 != k) ++ [(k, v)]

/-- MongoDB `$set` with update document `u`: every top-level field of `u` is
written into `d`; fields absent from `u` are untouched. -/
def applySet (d : Doc) (u : Doc) : Doc :=
  u.foldl (fun acc kv => setKey acc kv.1 kv.2) d

/-- A query filter as used by the handlers: an optional `_id` equality and an
optional `userId` equality (`{}`, `{userId}`, `{_id}`, `{_id, userId}`). -/
structure Filter where
  idF : Option ObjectId
  userF : Option String
deriving DecidableEq, Repr

/-- Whether a document matches the filter: every constraint present must be
an exact equality on the stored value. -/
def fMatch (f : Filter) (d : Doc) : Bool :=
  (match f.idF with
   | none => true
   | some o => dGet d "_id" == some (BVal.oid o)) &&
  (match f.userF with
   | none => true
   | some u => dGet d "userId" == some (BVal.str u))

/-- MongoDB `find(filter).toArray()`: all matching documents in natural
(insertion) order. -/
def findMany (ds : List Doc) (f : Filter) : List Doc :=
  ds.filter (fMatch f)

/-- MongoDB `findOne(filter)`: the first matching document, if any. -/
def findOne : List Doc → Filter → Option Doc
  | [], _ => none
  | d :: ds, f => if fMatch f d then some d else findOne ds f

/-- MongoDB `updateOne(filter, {$set: u})` on a collection: applies `u` to
the first matching document; returns the new collection and `matchedCount`
(0 or 1). -/
def updateOne : List Doc → Filter → Doc → List Doc × Nat
  | [], _, _ => ([], 0)
  | d :: ds, f, u =>
    if fMatch f d then (applySet d u :: ds, 1)
    else
      let r := updateOne ds f u
      (d :: r.1, r.2)

/-- MongoDB `deleteOne(filter)`: removes the first matching document; returns
the new collection and `deletedCount` (0 or 1). -/
def deleteOne : List Doc → Filter → List Doc × Nat
  | [], _ => ([], 0)
  | d :: ds, f =>
    if fMatch f d then (ds, 1)
    else
      let r := deleteOne ds f
      (d :: r.1, r.2)

/-- MongoDB `insertOne(doc)` id assignment, per the Node driver: a document
already carrying `_id` keeps it and that value is reported as `insertedId`;
otherwise the driver assigns a fresh ObjectId (modelled by the store counter).
Returns the stored document, the `insertedId`, and the next counter. -/
def insertAssign (d : Doc) (counter : Nat) : Doc × BVal × Nat :=
  match dGet d "_id" with
  | some v => (d, v, counter)
  | none =>
    (setKey d "_id" (BVal.oid (genId counter)), BVal.oid (genId counter), counter + 1)

/-- The persistent state: the two collections used by the server, plus the
id-generation counter. -/
structure St where
  notes : List Doc
  folders : List Doc
  counter : Nat
deriving DecidableEq, Repr

/-- A response body: `{message: ...}` error/ack objects, a single document,
an array of documents, the `insertOne` acknowledgement `{acknowledged,
insertedId}`, or plain text. -/
inductive RespBody where
  | message : String → RespBody
  | doc : Doc → RespBody
  | docs : List Doc → RespBody
  | insertAck : BVal → RespBody
  | text : String → RespBody
deriving DecidableEq, Repr

/-- An HTTP response: status code and body. -/
structure Response where
  status : Nat
  body : RespBody
deriving DecidableEq, Repr

/-- Result of handling one request: the response, the resulting store state,
and how many store operations were issued while handling it. -/
structure Outcome where
  resp : Response
  st : St
  storeCalls : Nat
deriving DecidableEq, Repr

/-- The routes of the authenticated server (`src/unnamed/part_000`), with the
parsed JSON body where the handler reads one. -/
inductive Route where
  | root
  | notesCreate : Doc → Route
  | notesList
  | notesGet : String → Route
  | notesPut : String → Doc → Route
  | notesDelete : String → Route
  | foldersCreate : Doc → Route
  | foldersList
  | foldersGet : String → Route
  | foldersDelete : String → Route
deriving DecidableEq, Repr

/-- An incoming request: the matched route and the `authorization` header
(`none` when the header is absent). -/
structure Request where
  route : Route
  auth : Option String
deriving DecidableEq, Repr

/-- JS `String.prototype.startsWith`. -/
def strStartsWith (s p : String) : Bool :=
  p.data.isPrefixOf s.data

/-- JS `String.prototype.split(" ")`, character-level. -/
def splitSpaceAux : List Char → List Char → List String
  | [], acc => [String.mk acc.reverse]
  | c :: cs, acc =>
    if c = ' ' then String.mk acc.reverse :: splitSpaceAux cs []
    else splitSpaceAux cs (c :: acc)

/-- JS `h.split(" ")`. -/
def jsSplitSpace (s : String) : List String :=
  splitSpaceAux s.data []

/-- Outcome of the `authenticateFirebaseToken` middleware. -/
inductive AuthResult where
  | unauthorized
  | forbidden
  | ok : String → AuthResult
deriving DecidableEq, Repr

/-- The `authenticateFirebaseToken` middleware: 401 when the header is absent
or lacks the `Bearer ` prefix; otherwise the token after the first space is
verified (`verify` models `admin.auth().verifyIdToken`, returning the
subject uid or failing), with failure mapped to 403.  An empty header string
is falsy in JS and also fails the prefix test, so `none` covers absence and
the string cases agree with the source's `!authHeader ||
!authHeader.startsWith("Bearer ")`. -/
def authenticateFirebaseToken (verify : String → Option String) :
    Option String → AuthResult
  | none => AuthResult.unauthorized
  | some h =>
    if strStartsWith h "Bearer " then
      match verify ((jsSplitSpace h).getD 1 "") with
      | some uid => AuthResult.ok uid
      | none => AuthResult.forbidden
    else AuthResult.unauthorized

/-! ### Route handlers of the authenticated server (`src/unnamed/part_000`)

Each handler takes the verified `uid` attached by the middleware, the request
pieces it reads, the store state, and `storeOk` — whether the awaited store
call succeeds or rejects (connectivity/internal failure), which the source
catches in each handler's `try/catch`.  A rejected store call still counts as
an issued store operation. -/

/-- `app.post("/notes")`: spreads the body, overrides `userId` with the
verified uid, inserts, and returns 201 with the insert acknowledgement.  Any
thrown error is caught as 500. -/
def notesCreateHandler (uid : String) (body : Doc) (st : St) (storeOk : Bool) :
    Outcome :=
  let note := setKey body "userId" (BVal.str uid)
  if storeOk then
    let r := insertAssign note st.counter
    ⟨⟨201, RespBody.insertAck r.2.1⟩,
     { st with notes := st.notes ++ [r.1], counter := r.2.2 }, 1⟩
  else ⟨⟨500, RespBody.message "Failed to create note"⟩, st, 1⟩

/-- `app.get("/notes")` (authenticated server): `find({userId: uid})`,
200 with the array; catch gives 500. -/
def notesListHandler (uid : String) (st : St) (storeOk : Bool) : Outcome :=
  if storeOk then
    ⟨⟨200, RespBody.docs (findMany st.notes ⟨none, some uid⟩)⟩, st, 1⟩
  else ⟨⟨500, RespBody.message "Failed to fetch notes"⟩, st, 1⟩

/-- `app.get("/notes/:id")`: `new ObjectId(id)` throws on a malformed id and
the catch answers 400 "Invalid note ID" — the same catch that fires when the
`findOne` call itself rejects.  Otherwise `findOne({_id, userId})`: missing
document is 404, found is 200. -/
def notesGetHandler (uid : String) (id : String) (st : St) (storeOk : Bool) :
    Outcome :=
  match parseObjectId id with
  | none => ⟨⟨400, RespBody.message "Invalid note ID"⟩, st, 0⟩
  | some o =>
    if storeOk then
      match findOne st.notes ⟨some o, some uid⟩ with
      | none => ⟨⟨404, RespBody.message "Note not found"⟩, st, 1⟩
      | some note => ⟨⟨200, RespBody.doc note⟩, st, 1⟩
    else ⟨⟨400, RespBody.message "Invalid note ID"⟩, st, 1⟩

/-- `app.put("/notes/:id")`: the whole body, including a malformed-id throw
from `new ObjectId`, is caught as 500 "Failed to update note".  Otherwise
`updateOne({_id, userId}, {$set: body})`; `matchedCount` zero is 404, else a
200 acknowledgement. -/
def notesPutHandler (uid : String) (id : String) (body : Doc) (st : St)
    (storeOk : Bool) : Outcome :=
  match parseObjectId id with
  | none => ⟨⟨500, RespBody.message "Failed to update note"⟩, st, 0⟩
  | some o =>
    if storeOk then
      let r := updateOne st.notes ⟨some o, some uid⟩ body
      if r.2 = 0 then
        ⟨⟨404, RespBody.message "Note not found"⟩, { st with notes := r.1 }, 1⟩
      else
        ⟨⟨200, RespBody.message "Note updated successfully"⟩,
         { st with notes := r.1 }, 1⟩
    else ⟨⟨500, RespBody.message "Failed to update note"⟩, st, 1⟩

/-- `app.delete("/notes/:id")`: a malformed-id throw is caught as 500
"Failed to delete note"; otherwise `deleteOne({_id, userId})`,
`deletedCount` zero is 404, else 200 `{message: "Note deleted"}`. -/
def notesDeleteHandler (uid : String) (id : String) (st : St) (storeOk : Bool) :
    Outcome :=
  match parseObjectId id with
  | none => ⟨⟨500, RespBody.message "Failed to delete note"⟩, st, 0⟩
  | some o =>
    if storeOk then
      let r := deleteOne st.notes ⟨some o, some uid⟩
      if r.2 = 0 then
        ⟨⟨404, RespBody.message "Note not found"⟩, { st with notes := r.1 }, 1⟩
      else
        ⟨⟨200, RespBody.message "Note deleted"⟩, { st with notes := r.1 }, 1⟩
    else ⟨⟨500, RespBody.message "Failed to delete note"⟩, st, 1⟩

/-- `app.post("/folders")`: mirror of the notes create handler. -/
def foldersCreateHandler (uid : String) (body : Doc) (st : St)
    (storeOk : Bool) : Outcome :=
  let folder := setKey body "userId" (BVal.str uid)
  if storeOk then
    let r := insertAssign folder st.counter
    ⟨⟨201, RespBody.insertAck r.2.1⟩,
     { st with folders := st.folders ++ [r.1], counter := r.2.2 }, 1⟩
  else ⟨⟨500, RespBody.message "Failed to create folder"⟩, st, 1⟩

/-- `app.get("/folders")` (authenticated server). -/
def foldersListHandler (uid : String) (st : St) (storeOk : Bool) : Outcome :=
  if storeOk then
    ⟨⟨200, RespBody.docs (findMany st.folders ⟨none, some uid⟩)⟩, st, 1⟩
  else ⟨⟨500, RespBody.message "Failed to fetch folders"⟩, st, 1⟩

/-- `app.get("/folders/:id")`: mirror of the notes get handler (400 "Invalid
folder ID" from the catch, 404 "Folder not found"). -/
def foldersGetHandler (uid : String) (id : String) (st : St) (storeOk : Bool) :
    Outcome :=
  match parseObjectId id with
  | none => ⟨⟨400, RespBody.message "Invalid folder ID"⟩, st, 0⟩
  | some o =>
    if storeOk then
      match findOne st.folders ⟨some o, some uid⟩ with
      | none => ⟨⟨404, RespBody.message "Folder not found"⟩, st, 1⟩
      | some folder => ⟨⟨200, RespBody.doc folder⟩, st, 1⟩
    else ⟨⟨400, RespBody.message "Invalid folder ID"⟩, st, 1⟩

/-- `app.delete("/folders/:id")`: mirror of the notes delete handler. -/
def foldersDeleteHandler (uid : String) (id : String) (st : St)
    (storeOk : Bool) : Outcome :=
  match parseObjectId id with
  | none => ⟨⟨500, RespBody.message "Failed to delete folder"⟩, st, 0⟩
  | some o =>
    if storeOk then
      let r := deleteOne st.folders ⟨some o, some uid⟩
      if r.2 = 0 then
        ⟨⟨404, RespBody.message "Folder not found"⟩, { st with folders := r.1 }, 1⟩
      else
        ⟨⟨200, RespBody.message "Folder deleted"⟩, { st with folders := r.1 }, 1⟩
    else ⟨⟨500, RespBody.message "Failed to delete folder"⟩, st, 1⟩

/-- Dispatch to the handler once `authenticateFirebaseToken` has attached the
verified uid (`req.user.uid`). -/
def dispatch (uid : String) (st : St) (storeOk : Bool) : Route → Outcome
  | Route.root => ⟨⟨200, RespBody.text "Notes API is running..."⟩, st, 0⟩
  | Route.notesCreate body => notesCreateHandler uid body st storeOk
  | Route.notesList => notesListHandler uid st storeOk
  | Route.notesGet id => notesGetHandler uid id st storeOk
  | Route.notesPut id body => notesPutHandler uid id body st storeOk
  | Route.notesDelete id => notesDeleteHandler uid id st storeOk
  | Route.foldersCreate body => foldersCreateHandler uid body st storeOk
  | Route.foldersList => foldersListHandler uid st storeOk
  | Route.foldersGet id => foldersGetHandler uid id st storeOk
  | Route.foldersDelete id => foldersDeleteHandler uid id st storeOk

/-- The authenticated server (`src/unnamed/part_000`): `GET /` is public;
every other route runs `authenticateFirebaseToken` first and reaches its
handler only when the middleware calls `next()`. -/
def handle (verify : String → Option String) (req : Request) (st : St)
    (storeOk : Bool) : Outcome :=
  match req.route with
  | Route.root => ⟨⟨200, RespBody.text "Notes API is running..."⟩, st, 0⟩
  | r =>
    match authenticateFirebaseToken verify req.auth with
    | AuthResult.unauthorized =>
      ⟨⟨401, RespBody.message "Unauthorized"⟩, st, 0⟩
    | AuthResult.forbidden =>
      ⟨⟨403, RespBody.message "Invalid token"⟩, st, 0⟩
    | AuthResult.ok uid => dispatch uid st storeOk r

/-! ### The open server (`src/index.js`)

Only `GET /`, `GET /notes`, `GET /notes/:id` and `GET /folders` exist; no
authentication middleware is registered and the find filters are `{}` for the
lists and `{_id}` alone for get-by-id.  Express answers any other path with
its default 404 page. -/

/-- The open server of `src/index.js`.  The request's `auth` field is never
read: no route is behind the middleware. -/
def handleOpen (req : Request) (st : St) (storeOk : Bool) : Outcome :=
  match req.route with
  | Route.root => ⟨⟨200, RespBody.text "Notes API is running..."⟩, st, 0⟩
  | Route.notesList =>
    if storeOk then ⟨⟨200, RespBody.docs (findMany st.notes ⟨none, none⟩)⟩, st, 1⟩
    else ⟨⟨500, RespBody.message "Failed to fetch notes"⟩, st, 1⟩
  | Route.notesGet id =>
    (match parseObjectId id with
     | none => ⟨⟨400, RespBody.message "Invalid note ID"⟩, st, 0⟩
     | some o =>
       if storeOk then
         match findOne st.notes ⟨some o, none⟩ with
         | none => ⟨⟨404, RespBody.message "Note not found"⟩, st, 1⟩
         | some note => ⟨⟨200, RespBody.doc note⟩, st, 1⟩
       else ⟨⟨400, RespBody.message "Invalid note ID"⟩, st, 1⟩)
  | Route.foldersList =>
    if storeOk then ⟨⟨200, RespBody.docs (findMany st.folders ⟨none, none⟩)⟩, st, 1⟩
    else ⟨⟨500, RespBody.message "Failed to fetch folders"⟩, st, 1⟩
  | _ => ⟨⟨404, RespBody.text "Cannot find route"⟩, st, 0⟩

/-! ### Basic lemmas about documents, filters and the store primitives -/

theorem dGet_append (l1 l2 : Doc) (k : String) :
    dGet (l1 ++ l2) k =
      (match dGet l1 k with | some v => some v | none => dGet l2 k) := by
  induction l1 with
  | nil => simp [dGet]
  | cons p rest ih =>
    obtain ⟨pk, pv⟩ := p
    by_cases h : pk = k
    · simp [dGet, h]
    · simp [dGet, h, ih]

theorem dGet_filterOut_same (l : Doc) (k : String) :
    dGet (l.filter (fun p => p.1 != k)) k = none := by
  induction l with
  | nil => simp [dGet]
  | cons p rest ih =>
    obtain ⟨pk, pv⟩ := p
    by_cases h : pk = k
    · simp [h, ih]
    · simp [List.filter_cons, h, dGet, ih]

theorem dGet_filterOut_other (l : Doc) (k k' : String) (h : k' ≠ k) :
    dGet (l.filter (fun p => p.1 != k)) k' = dGet l k' := by
  induction l with
  | nil => simp
  | cons p rest ih =>
    obtain ⟨pk, pv⟩ := p
    by_cases hk : pk = k
    · simp [hk, dGet, Ne.symm h, ih]
    · simp [List.filter_cons, hk, dGet, ih]

theorem dGet_setKey_same (d : Doc) (k : String) (v : BVal) :
    dGet (setKey d k v) k = some v := by
  rw [setKey, dGet_append, dGet_filterOut_same]
  simp [dGet]

theorem dGet_setKey_other (d : Doc) (k k' : String) (v : BVal) (h : k' ≠ k) :
    dGet (setKey d k v) k' = dGet d k' := by
  rw [setKey, dGet_append, dGet_filterOut_other d k k' h]
  cases hx : dGet d k'
  · simp [dGet, Ne.symm h]
  · rfl

theorem findOne_append (l1 l2 : List Doc) (f : Filter) :
    findOne (l1 ++ l2) f =
      (match findOne l1 f with | some d => some d | none => findOne l2 f) := by
  induction l1 with
  | nil => simp [findOne]
  | cons d rest ih =>
    by_cases h : fMatch f d
    · simp [findOne, h]
    · simp [findOne, h, ih]

theorem findOne_eq_none (l : List Doc) (f : Filter)
    (h : ∀ d ∈ l, fMatch f d = false) : findOne l f = none := by
  induction l with
  | nil => rfl
  | cons d rest ih =>
    have hd := h d (List.mem_cons_self d rest)
    simp [findOne, hd]
    exact ih (fun d' hd' => h d' (List.mem_cons_of_mem d hd'))

theorem updateOne_no_match (l : List Doc) (f : Filter) (u : Doc)
    (h : ∀ d ∈ l, fMatch f d = false) : updateOne l f u = (l, 0) := by
  induction l with
  | nil => rfl
  | cons d rest ih =>
    have hd := h d (List.mem_cons_self d rest)
    have ihr := ih (fun d' hd' => h d' (List.mem_cons_of_mem d hd'))
    simp [updateOne, hd, ihr]

theorem deleteOne_no_match (l : List Doc) (f : Filter)
    (h : ∀ d ∈ l, fMatch f d = false) : deleteOne l f = (l, 0) := by
  induction l with
  | nil => rfl
  | cons d rest ih =>
    have hd := h d (List.mem_cons_self d rest)
    have ihr := ih (fun d' hd' => h d' (List.mem_cons_of_mem d hd'))
    simp [deleteOne, hd, ihr]

theorem deleteOne_of_countP_one (l : List Doc) (f : Filter)
    (h : l.countP (fMatch f) = 1) :
    (deleteOne l f).2 = 1 ∧ (deleteOne l f).1.countP (fMatch f) = 0 := by
  induction l with
  | nil => simp [List.countP_nil] at h
  | cons d rest ih =>
    by_cases hd : fMatch f d
    · have hr : rest.countP (fMatch f) = 0 := by
        have := h
        rw [List.countP_cons, if_pos hd] at this
        omega
      simp [deleteOne, hd, hr]
    · have hr : rest.countP (fMatch f) = 1 := by
        have := h
        rw [List.countP_cons, if_neg hd] at this
        omega
      have ihr := ih hr
      simp [deleteOne, hd, List.countP_cons, ihr.1, ihr.2]

theorem findMany_no_filter (ds : List Doc) : findMany ds ⟨none, none⟩ = ds := by
  unfold findMany
  have : ∀ d, fMatch ⟨none, none⟩ d = true := fun d => rfl
  simp [this]

/-! ### Shape of generated identifiers -/

theorem hexDigitsAux_length (fuel : Nat) : ∀ n, (hexDigitsAux fuel n).length = fuel := by
  induction fuel with
  | zero => intro n; rfl
  | succ k ih => intro n; simp [hexDigitsAux, ih]

theorem hexChar_facts : ∀ j, j < 16 →
    (isHexDigit (hexChar j) = true ∧ Char.toLower (hexChar j) = hexChar j) := by
  decide

theorem hexDigitsAux_mem (fuel : Nat) : ∀ n c, c ∈ hexDigitsAux fuel n →
    isHexDigit c = true ∧ Char.toLower c = c := by
  induction fuel with
  | zero => intro n c hc; simp [hexDigitsAux] at hc
  | succ k ih =>
    intro n c hc
    rw [hexDigitsAux, List.mem_cons] at hc
    rcases hc with hc | hc
    · exact hc ▸ hexChar_facts (n % 16) (Nat.mod_lt n (by norm_num))
    · exact ih (n / 16) c hc

theorem listMapFix {α : Type} (f : α → α) :
    ∀ l : List α, (∀ c ∈ l, f c = c) → l.map f = l := by
  intro l h
  induction l with
  | nil => rfl
  | cons a rest ih =>
    rw [List.map_cons, h a (List.mem_cons_self a rest),
      ih (fun c hc => h c (List.mem_cons_of_mem a hc))]

/-- A driver-generated identifier is a valid canonical ObjectId string: the
get-by-id handlers parse it back to the same identifier. -/
theorem parse_genId (n : Nat) : parseObjectId (genId n).hex = some (genId n) := by
  have hvalid : isValidObjectIdString (genId n).hex = true := by
    rw [isValidObjectIdString]
    have hlen : (String.mk (hexDigitsAux 24 n).reverse).data.length = 24 := by
      show (hexDigitsAux 24 n).reverse.length = 24
      rw [List.length_reverse, hexDigitsAux_length]
    have hall : (String.mk (hexDigitsAux 24 n).reverse).data.all isHexDigit = true := by
      rw [List.all_eq_true]
      intro c hc
      exact (hexDigitsAux_mem 24 n c (List.mem_reverse.mp hc)).1
    rw [genId]
    simp only [hlen, hall, Bool.and_true]
    rfl
  have hlower : strToLower (genId n).hex = (genId n).hex := by
    rw [genId, strToLower]
    show String.mk ((hexDigitsAux 24 n).reverse.map Char.toLower) = _
    rw [listMapFix Char.toLower _
      (fun c hc => (hexDigitsAux_mem 24 n c (List.mem_reverse.mp hc)).2)]
  rw [parseObjectId, if_pos hvalid, hlower]

/-! ### Claims -/

/-- C1: a read, update or delete of a note or folder whose id/owner filter
matches no stored document — which covers both "the document does not exist"
and "the document exists but is owned by someone other than the verified
requester" — produces the same 404 not-found outcome, with the store state
unchanged, so a non-owner cannot distinguish another user's document from a
nonexistent one. -/
theorem c1_nonowner_indistinguishable_from_absent
    (verify : String → Option String) (hdr uid idStr : String) (o : ObjectId)
    (st : St) (body : Doc)
    (hpre : strStartsWith hdr "Bearer " = true)
    (hver : verify ((jsSplitSpace hdr).getD 1 "") = some uid)
    (hid : parseObjectId idStr = some o)
    (hnote : ∀ d ∈ st.notes, fMatch ⟨some o, some uid⟩ d = false)
    (hfolder : ∀ d ∈ st.folders, fMatch ⟨some o, some uid⟩ d = false) :
    handle verify ⟨Route.notesGet idStr, some hdr⟩ st true =
      ⟨⟨404, RespBody.message "Note not found"⟩, st, 1⟩ ∧
    handle verify ⟨Route.notesPut idStr body, some hdr⟩ st true =
      ⟨⟨404, RespBody.message "Note not found"⟩, st, 1⟩ ∧
    handle verify ⟨Route.notesDelete idStr, some hdr⟩ st true =
      ⟨⟨404, RespBody.message "Note not found"⟩, st, 1⟩ ∧
    handle verify ⟨Route.foldersGet idStr, some hdr⟩ st true =
      ⟨⟨404, RespBody.message "Folder not found"⟩, st, 1⟩ ∧
    handle verify ⟨Route.foldersDelete idStr, some hdr⟩ st true =
      ⟨⟨404, RespBody.message "Folder not found"⟩, st, 1⟩ := by
  have hver2 : verify ((jsSplitSpace hdr)[1]?.getD "") = some uid := by
    simpa [List.getD] using hver
  have hauth : authenticateFirebaseToken verify (some hdr) = AuthResult.ok uid := by
    simp [authenticateFirebaseToken, hpre, hver2]
  refine ⟨?_, ?_, ?_, ?_, ?_⟩ <;>
    simp [handle, hauth, dispatch, notesGetHandler, notesPutHandler,
      notesDeleteHandler, foldersGetHandler, foldersDeleteHandler, hid,
      findOne_eq_none _ _ hnote, findOne_eq_none _ _ hfolder,
      updateOne_no_match _ _ body hnote, deleteOne_no_match _ _ hnote,
      deleteOne_no_match _ _ hfolder]

/-- Concrete instance of `c1_nonowner_indistinguishable_from_absent`: the
store holds one note and one folder with id `aa…a`, both owned by `owner1`;
requester `u9` gets the same 404s produced for a nonexistent id. -/
theorem c1_witness :
    handle (fun t => if t = "tok" then some "u9" else none)
        ⟨Route.notesGet "aaaaaaaaaaaaaaaaaaaaaaaa", some "Bearer tok"⟩
        ⟨[[("_id", BVal.oid ⟨"aaaaaaaaaaaaaaaaaaaaaaaa"⟩), ("userId", BVal.str "owner1")]],
         [[("_id", BVal.oid ⟨"aaaaaaaaaaaaaaaaaaaaaaaa"⟩), ("userId", BVal.str "owner1")]],
         5⟩ true =
      ⟨⟨404, RespBody.message "Note not found"⟩,
       ⟨[[("_id", BVal.oid ⟨"aaaaaaaaaaaaaaaaaaaaaaaa"⟩), ("userId", BVal.str "owner1")]],
        [[("_id", BVal.oid ⟨"aaaaaaaaaaaaaaaaaaaaaaaa"⟩), ("userId", BVal.str "owner1")]],
        5⟩, 1⟩ :=
  (c1_nonowner_indistinguishable_from_absent
    (fun t => if t = "tok" then some "u9" else none) "Bearer tok" "u9"
    "aaaaaaaaaaaaaaaaaaaaaaaa" ⟨"aaaaaaaaaaaaaaaaaaaaaaaa"⟩ _ []
    (by decide) (by decide) (by decide)
    (by intro d hd; rw [List.mem_singleton] at hd; subst hd; decide)
    (by intro d hd; rw [List.mem_singleton] at hd; subst hd; decide)).1

/-- C2: an authenticated create of a note or folder appends exactly one
document to the collection, and that document's `userId` field equals the
verified uid — for every request body, including bodies that carry their own
`userId`, because the handler spreads the body first and then overrides
`userId` with `req.user.uid`. -/
theorem c2_create_stamps_verified_owner
    (verify : String → Option String) (hdr uid : String) (st : St) (body : Doc)
    (hpre : strStartsWith hdr "Bearer " = true)
    (hver : verify ((jsSplitSpace hdr).getD 1 "") = some uid) :
    (∃ d, (handle verify ⟨Route.notesCreate body, some hdr⟩ st true).st.notes
          = st.notes ++ [d] ∧
        dGet d "userId" = some (BVal.str uid) ∧
        (handle verify ⟨Route.notesCreate body, some hdr⟩ st true).resp.status = 201) ∧
    (∃ d, (handle verify ⟨Route.foldersCreate body, some hdr⟩ st true).st.folders
          = st.folders ++ [d] ∧
        dGet d "userId" = some (BVal.str uid) ∧
        (handle verify ⟨Route.foldersCreate body, some hdr⟩ st true).resp.status = 201) := by
  have hver2 : verify ((jsSplitSpace hdr)[1]?.getD "") = some uid := by
    simpa [List.getD] using hver
  have hauth : authenticateFirebaseToken verify (some hdr) = AuthResult.ok uid := by
    simp [authenticateFirebaseToken, hpre, hver2]
  have howner : dGet (insertAssign (setKey body "userId" (BVal.str uid)) st.counter).1
      "userId" = some (BVal.str uid) := by
    rcases hx : dGet (setKey body "userId" (BVal.str uid)) "_id" with _ | v
    · simp [insertAssign, hx,
        dGet_setKey_other _ _ _ _ (by decide : ("userId" : String) ≠ "_id"),
        dGet_setKey_same]
    · simp [insertAssign, hx, dGet_setKey_same]
  constructor
  · exact ⟨(insertAssign (setKey body "userId" (BVal.str uid)) st.counter).1,
      by simp [handle, hauth, dispatch, notesCreateHandler], howner,
      by simp [handle, hauth, dispatch, notesCreateHandler]⟩
  · exact ⟨(insertAssign (setKey body "userId" (BVal.str uid)) st.counter).1,
      by simp [handle, hauth, dispatch, foldersCreateHandler], howner,
      by simp [handle, hauth, dispatch, foldersCreateHandler]⟩

/-- Concrete instance of `c2_create_stamps_verified_owner`: a body that tries
to smuggle `userId: "attacker"` is still stored with the verified uid `u1`. -/
theorem c2_witness :
    ∃ d, (handle (fun t => if t = "tok" then some "u1" else none)
          ⟨Route.notesCreate [("userId", BVal.str "attacker"), ("title", BVal.str "A")],
           some "Bearer tok"⟩ ⟨[], [], 0⟩ true).st.notes = [] ++ [d] ∧
      dGet d "userId" = some (BVal.str "u1") ∧
      (handle (fun t => if t = "tok" then some "u1" else none)
          ⟨Route.notesCreate [("userId", BVal.str "attacker"), ("title", BVal.str "A")],
           some "Bearer tok"⟩ ⟨[], [], 0⟩ true).resp.status = 201 :=
  (c2_create_stamps_verified_owner
    (fun t => if t = "tok" then some "u1" else none) "Bearer tok" "u1" ⟨[], [], 0⟩
    [("userId", BVal.str "attacker"), ("title", BVal.str "A")]
    (by decide) (by decide)).1

/-- C4: a request to any protected route (every route except `GET /`) with a
missing authorization header, or a header lacking the `Bearer ` scheme
prefix, is answered 401 `{message:"Unauthorized"}`; one whose token fails
verification is answered 403 `{message:"Invalid token"}`; in all three cases
the store state is unchanged and zero store operations were issued. -/
theorem c4_auth_failures_reach_no_store
    (verify : String → Option String) (req : Request) (st : St) (storeOk : Bool)
    (hroot : req.route ≠ Route.root) :
    (req.auth = none →
      handle verify req st storeOk = ⟨⟨401, RespBody.message "Unauthorized"⟩, st, 0⟩) ∧
    (∀ hdr, req.auth = some hdr → strStartsWith hdr "Bearer " = false →
      handle verify req st storeOk = ⟨⟨401, RespBody.message "Unauthorized"⟩, st, 0⟩) ∧
    (∀ hdr, req.auth = some hdr → strStartsWith hdr "Bearer " = true →
      verify ((jsSplitSpace hdr).getD 1 "") = none →
      handle verify req st storeOk = ⟨⟨403, RespBody.message "Invalid token"⟩, st, 0⟩) := by
  obtain ⟨r, a⟩ := req
  refine ⟨?_, ?_, ?_⟩
  · intro ha
    cases r <;> simp_all [handle, authenticateFirebaseToken]
  · intro hdr ha hsw
    cases r <;> simp_all [handle, authenticateFirebaseToken]
  · intro hdr ha hsw hv
    cases r <;> simp_all [handle, authenticateFirebaseToken]

/-- Concrete instance of `c4_auth_failures_reach_no_store`: a headerless
`GET /notes` against a nonempty store is answered 401 with the store
untouched and zero store calls. -/
theorem c4_witness :
    handle (fun _ => some "u1") ⟨Route.notesList, none⟩
        ⟨[[("title", BVal.str "A")]], [], 3⟩ true =
      ⟨⟨401, RespBody.message "Unauthorized"⟩, ⟨[[("title", BVal.str "A")]], [], 3⟩, 0⟩ :=
  (c4_auth_failures_reach_no_store (fun _ => some "u1") ⟨Route.notesList, none⟩
    ⟨[[("title", BVal.str "A")]], [], 3⟩ true (by decide)).1 rfl

/-- C3: the owner field is NOT immutable.  `PUT /notes/:id` passes the raw
request body to `updateOne(..., {$set: body})`, so an owner can be rewritten
by body content: requester `u1` updates their own note with body
`{userId:"u2"}` and the stored document's `userId` becomes `"u2"` — the
update succeeds (200) and the owner assigned at creation is gone.  This
contradicts the spec's invariant that the owner is never mutable and must be
immune to caller-supplied body content. -/
theorem c3_owner_overwritten_by_put_body :
    handle (fun t => if t = "tok" then some "u1" else none)
        ⟨Route.notesPut "000000000000000000000000" [("userId", BVal.str "u2")],
         some "Bearer tok"⟩
        ⟨[[("_id", BVal.oid ⟨"000000000000000000000000"⟩),
           ("userId", BVal.str "u1"), ("title", BVal.str "A")]], [], 1⟩ true =
      ⟨⟨200, RespBody.message "Note updated successfully"⟩,
       ⟨[[("_id", BVal.oid ⟨"000000000000000000000000"⟩),
          ("title", BVal.str "A"), ("userId", BVal.str "u2")]], [], 1⟩, 1⟩ ∧
    dGet [("_id", BVal.oid ⟨"000000000000000000000000"⟩),
          ("title", BVal.str "A"), ("userId", BVal.str "u2")] "userId" ≠
      some (BVal.str "u1") := by
  decide

/-- C5 counterexample: a malformed id (`"bad"`) on `PUT /notes/:id` is
answered 500 `{message:"Failed to update note"}`, not the 400
invalid-identifier error the claim states for all three by-id operations
(the `new ObjectId` throw lands in the handler's generic catch). -/
theorem c5_counterexample_put_malformed_id_is_500 :
    (handle (fun t => if t = "tok" then some "u1" else none)
        ⟨Route.notesPut "bad" [("title", BVal.str "B")], some "Bearer tok"⟩
        ⟨[], [], 0⟩ true).resp = ⟨500, RespBody.message "Failed to update note"⟩ ∧
    ¬((handle (fun t => if t = "tok" then some "u1" else none)
        ⟨Route.notesPut "bad" [("title", BVal.str "B")], some "Bearer tok"⟩
        ⟨[], [], 0⟩ true).resp.status = 400) := by
  decide

/-- C5 amended: a syntactically invalid `:id` is rejected before any store
call on every by-id route (zero store operations, state unchanged), and is
distinct from the 404 used for an absent id — but only the get-by-id routes
answer 400; the update and delete routes catch the `new ObjectId` throw into
their generic 500 response. -/
theorem c5_invalid_id_rejected_before_store
    (verify : String → Option String) (hdr uid idStr : String)
    (st : St) (body : Doc)
    (hpre : strStartsWith hdr "Bearer " = true)
    (hver : verify ((jsSplitSpace hdr).getD 1 "") = some uid)
    (hbad : isValidObjectIdString idStr = false) :
    handle verify ⟨Route.notesGet idStr, some hdr⟩ st true =
      ⟨⟨400, RespBody.message "Invalid note ID"⟩, st, 0⟩ ∧
    handle verify ⟨Route.notesPut idStr body, some hdr⟩ st true =
      ⟨⟨500, RespBody.message "Failed to update note"⟩, st, 0⟩ ∧
    handle verify ⟨Route.notesDelete idStr, some hdr⟩ st true =
      ⟨⟨500, RespBody.message "Failed to delete note"⟩, st, 0⟩ ∧
    handle verify ⟨Route.foldersGet idStr, some hdr⟩ st true =
      ⟨⟨400, RespBody.message "Invalid folder ID"⟩, st, 0⟩ ∧
    handle verify ⟨Route.foldersDelete idStr, some hdr⟩ st true =
      ⟨⟨500, RespBody.message "Failed to delete folder"⟩, st, 0⟩ := by
  have hver2 : verify ((jsSplitSpace hdr)[1]?.getD "") = some uid := by
    simpa [List.getD] using hver
  have hauth : authenticateFirebaseToken verify (some hdr) = AuthResult.ok uid := by
    simp [authenticateFirebaseToken, hpre, hver2]
  have hparse : parseObjectId idStr = none := by
    rw [parseObjectId, hbad]
    rfl
  refine ⟨?_, ?_, ?_, ?_, ?_⟩ <;>
    simp [handle, hauth, dispatch, notesGetHandler, notesPutHandler,
      notesDeleteHandler, foldersGetHandler, foldersDeleteHandler, hparse]

/-- Concrete instance of `c5_invalid_id_rejected_before_store` at the
malformed id `"bad"`. -/
theorem c5_witness :
    handle (fun t => if t = "tok" then some "u1" else none)
        ⟨Route.notesGet "bad", some "Bearer tok"⟩ ⟨[], [], 0⟩ true =
      ⟨⟨400, RespBody.message "Invalid note ID"⟩, ⟨[], [], 0⟩, 0⟩ :=
  (c5_invalid_id_rejected_before_store
    (fun t => if t = "tok" then some "u1" else none) "Bearer tok" "u1" "bad"
    ⟨[], [], 0⟩ [] (by decide) (by decide) (by decide)).1

/-- C6 counterexample: on `GET /notes/:id` with a well-formed id, a failing
store call is caught by the same catch that handles a malformed id, so the
response is 400 `{message:"Invalid note ID"}` — not the 500 the claim states
for every route. -/
theorem c6_counterexample_get_store_failure_is_400 :
    (handle (fun t => if t = "tok" then some "u1" else none)
        ⟨Route.notesGet "aaaaaaaaaaaaaaaaaaaaaaaa", some "Bearer tok"⟩
        ⟨[], [], 0⟩ false).resp = ⟨400, RespBody.message "Invalid note ID"⟩ ∧
    ¬((handle (fun t => if t = "tok" then some "u1" else none)
        ⟨Route.notesGet "aaaaaaaaaaaaaaaaaaaaaaaa", some "Bearer tok"⟩
        ⟨[], [], 0⟩ false).resp.status = 500) := by
  decide

/-- C6 amended: when the store call fails, every route answers with a fixed
generic `{message}` body that carries no internal error detail and leaves the
store state unchanged — with status 500 on every route except the two
get-by-id routes, whose shared catch answers 400 with the generic
invalid-id message. -/
theorem c6_store_failure_generic_responses
    (verify : String → Option String) (hdr uid idStr : String) (o : ObjectId)
    (st : St) (body : Doc)
    (hpre : strStartsWith hdr "Bearer " = true)
    (hver : verify ((jsSplitSpace hdr).getD 1 "") = some uid)
    (hid : parseObjectId idStr = some o) :
    handle verify ⟨Route.notesCreate body, some hdr⟩ st false =
      ⟨⟨500, RespBody.message "Failed to create note"⟩, st, 1⟩ ∧
    handle verify ⟨Route.notesList, some hdr⟩ st false =
      ⟨⟨500, RespBody.message "Failed to fetch notes"⟩, st, 1⟩ ∧
    handle verify ⟨Route.notesGet idStr, some hdr⟩ st false =
      ⟨⟨400, RespBody.message "Invalid note ID"⟩, st, 1⟩ ∧
    handle verify ⟨Route.notesPut idStr body, some hdr⟩ st false =
      ⟨⟨500, RespBody.message "Failed to update note"⟩, st, 1⟩ ∧
    handle verify ⟨Route.notesDelete idStr, some hdr⟩ st false =
      ⟨⟨500, RespBody.message "Failed to delete note"⟩, st, 1⟩ ∧
    handle verify ⟨Route.foldersCreate body, some hdr⟩ st false =
      ⟨⟨500, RespBody.message "Failed to create folder"⟩, st, 1⟩ ∧
    handle verify ⟨Route.foldersList, some hdr⟩ st false =
      ⟨⟨500, RespBody.message "Failed to fetch folders"⟩, st, 1⟩ ∧
    handle verify ⟨Route.foldersGet idStr, some hdr⟩ st false =
      ⟨⟨400, RespBody.message "Invalid folder ID"⟩, st, 1⟩ ∧
    handle verify ⟨Route.foldersDelete idStr, some hdr⟩ st false =
      ⟨⟨500, RespBody.message "Failed to delete folder"⟩, st, 1⟩ := by
  have hver2 : verify ((jsSplitSpace hdr)[1]?.getD "") = some uid := by
    simpa [List.getD] using hver
  have hauth : authenticateFirebaseToken verify (some hdr) = AuthResult.ok uid := by
    simp [authenticateFirebaseToken, hpre, hver2]
  refine ⟨?_, ?_, ?_, ?_, ?_, ?_, ?_, ?_, ?_⟩ <;>
    simp [handle, hauth, dispatch, notesCreateHandler, notesListHandler,
      notesGetHandler, notesPutHandler, notesDeleteHandler,
      foldersCreateHandler, foldersListHandler, foldersGetHandler,
      foldersDeleteHandler, hid]

/-- Concrete instance of `c6_store_failure_generic_responses` for the list
route. -/
theorem c6_witness :
    handle (fun t => if t = "tok" then some "u1" else none)
        ⟨Route.notesList, some "Bearer tok"⟩ ⟨[], [], 0⟩ false =
      ⟨⟨500, RespBody.message "Failed to fetch notes"⟩, ⟨[], [], 0⟩, 1⟩ :=
  (c6_store_failure_generic_responses
    (fun t => if t = "tok" then some "u1" else none) "Bearer tok" "u1"
    "aaaaaaaaaaaaaaaaaaaaaaaa" ⟨"aaaaaaaaaaaaaaaaaaaaaaaa"⟩ ⟨[], [], 0⟩ []
    (by decide) (by decide) (by decide)).2.1

/-- C7 counterexample: the create handlers spread the raw body into the
inserted document, and MongoDB's `insertOne` keeps a caller-supplied `_id`,
so a body containing `_id` fully determines the stored identifier: creating
with body `{_id:"customid", title:"A"}` stores `_id = "customid"` and reports
it as `insertedId`. -/
theorem c7_counterexample_body_determines_id :
    handle (fun t => if t = "tok" then some "u1" else none)
        ⟨Route.notesCreate [("_id", BVal.str "customid"), ("title", BVal.str "A")],
         some "Bearer tok"⟩ ⟨[], [], 0⟩ true =
      ⟨⟨201, RespBody.insertAck (BVal.str "customid")⟩,
       ⟨[[("_id", BVal.str "customid"), ("title", BVal.str "A"),
          ("userId", BVal.str "u1")]], [], 0⟩, 1⟩ ∧
    dGet [("_id", BVal.str "customid"), ("title", BVal.str "A")] "_id" =
      some (BVal.str "customid") := by
  decide

/-- C7 amended: when the request body carries no `_id` field, the identifier
of a created note or folder is assigned by the store — the `insertedId` is
`genId st.counter`, an expression independent of the body — and it
round-trips through its canonical string representation (`parseObjectId` of
its hex string returns the same identifier). -/
theorem c7_store_generated_id_roundtrip
    (verify : String → Option String) (hdr uid : String) (st : St) (body : Doc)
    (hpre : strStartsWith hdr "Bearer " = true)
    (hver : verify ((jsSplitSpace hdr).getD 1 "") = some uid)
    (hbody : dGet body "_id" = none) :
    handle verify ⟨Route.notesCreate body, some hdr⟩ st true =
      ⟨⟨201, RespBody.insertAck (BVal.oid (genId st.counter))⟩,
       { st with
           notes := st.notes ++
             [setKey (setKey body "userId" (BVal.str uid)) "_id"
               (BVal.oid (genId st.counter))],
           counter := st.counter + 1 }, 1⟩ ∧
    handle verify ⟨Route.foldersCreate body, some hdr⟩ st true =
      ⟨⟨201, RespBody.insertAck (BVal.oid (genId st.counter))⟩,
       { st with
           folders := st.folders ++
             [setKey (setKey body "userId" (BVal.str uid)) "_id"
               (BVal.oid (genId st.counter))],
           counter := st.counter + 1 }, 1⟩ ∧
    parseObjectId (genId st.counter).hex = some (genId st.counter) := by
  have hver2 : verify ((jsSplitSpace hdr)[1]?.getD "") = some uid := by
    simpa [List.getD] using hver
  have hauth : authenticateFirebaseToken verify (some hdr) = AuthResult.ok uid := by
    simp [authenticateFirebaseToken, hpre, hver2]
  have hnid : dGet (setKey body "userId" (BVal.str uid)) "_id" = none := by
    rw [dGet_setKey_other _ _ _ _ (by decide : ("_id" : String) ≠ "userId"), hbody]
  refine ⟨?_, ?_, parse_genId st.counter⟩ <;>
    simp [handle, hauth, dispatch, notesCreateHandler, foldersCreateHandler,
      insertAssign, hnid]

/-- Concrete instance of `c7_store_generated_id_roundtrip` on an empty store
with body `{title:"A"}`. -/
theorem c7_witness :
    handle (fun t => if t = "tok" then some "u1" else none)
        ⟨Route.notesCreate [("title", BVal.str "A")], some "Bearer tok"⟩
        ⟨[], [], 0⟩ true =
      ⟨⟨201, RespBody.insertAck (BVal.oid (genId 0))⟩,
       ⟨[setKey (setKey [("title", BVal.str "A")] "userId" (BVal.str "u1")) "_id"
           (BVal.oid (genId 0))], [], 1⟩, 1⟩ :=
  (c7_store_generated_id_roundtrip
    (fun t => if t = "tok" then some "u1" else none) "Bearer tok" "u1"
    ⟨[], [], 0⟩ [("title", BVal.str "A")] (by decide) (by decide) (by decide)).1

/-- C8: when exactly one stored document matches the requester's scoped
filter `{_id: o, userId: uid}`, the first delete answers 200 with the
document removed, and repeating the identical request answers 404 with the
state unchanged — for notes and for folders. -/
theorem c8_delete_twice_success_then_404
    (verify : String → Option String) (hdr uid idStr : String) (o : ObjectId)
    (st : St)
    (hpre : strStartsWith hdr "Bearer " = true)
    (hver : verify ((jsSplitSpace hdr).getD 1 "") = some uid)
    (hid : parseObjectId idStr = some o)
    (hn : st.notes.countP (fMatch ⟨some o, some uid⟩) = 1)
    (hf : st.folders.countP (fMatch ⟨some o, some uid⟩) = 1) :
    (handle verify ⟨Route.notesDelete idStr, some hdr⟩ st true =
       ⟨⟨200, RespBody.message "Note deleted"⟩,
        { st with notes := (deleteOne st.notes ⟨some o, some uid⟩).1 }, 1⟩ ∧
     handle verify ⟨Route.notesDelete idStr, some hdr⟩
         { st with notes := (deleteOne st.notes ⟨some o, some uid⟩).1 } true =
       ⟨⟨404, RespBody.message "Note not found"⟩,
        { st with notes := (deleteOne st.notes ⟨some o, some uid⟩).1 }, 1⟩) ∧
    (handle verify ⟨Route.foldersDelete idStr, some hdr⟩ st true =
       ⟨⟨200, RespBody.message "Folder deleted"⟩,
        { st with folders := (deleteOne st.folders ⟨some o, some uid⟩).1 }, 1⟩ ∧
     handle verify ⟨Route.foldersDelete idStr, some hdr⟩
         { st with folders := (deleteOne st.folders ⟨some o, some uid⟩).1 } true =
       ⟨⟨404, RespBody.message "Folder not found"⟩,
        { st with folders := (deleteOne st.folders ⟨some o, some uid⟩).1 }, 1⟩) := by
  have hver2 : verify ((jsSplitSpace hdr)[1]?.getD "") = some uid := by
    simpa [List.getD] using hver
  have hauth : authenticateFirebaseToken verify (some hdr) = AuthResult.ok uid := by
    simp [authenticateFirebaseToken, hpre, hver2]
  have h1 := deleteOne_of_countP_one st.notes ⟨some o, some uid⟩ hn
  have h2 := deleteOne_of_countP_one st.folders ⟨some o, some uid⟩ hf
  have hn0 : ∀ d ∈ (deleteOne st.notes ⟨some o, some uid⟩).1,
      fMatch ⟨some o, some uid⟩ d = false := by
    intro d hd
    simpa using List.countP_eq_zero.mp h1.2 d hd
  have hf0 : ∀ d ∈ (deleteOne st.folders ⟨some o, some uid⟩).1,
      fMatch ⟨some o, some uid⟩ d = false := by
    intro d hd
    simpa using List.countP_eq_zero.mp h2.2 d hd
  refine ⟨⟨?_, ?_⟩, ⟨?_, ?_⟩⟩ <;>
    simp [handle, hauth, dispatch, notesDeleteHandler, foldersDeleteHandler,
      hid, h1.1, h2.1, deleteOne_no_match _ _ hn0, deleteOne_no_match _ _ hf0]

/-- Concrete instance of `c8_delete_twice_success_then_404`: one owned note
and one owned folder with id `aa…a`; the note delete succeeds once, then
404s. -/
theorem c8_witness :
    handle (fun t => if t = "tok" then some "u1" else none)
        ⟨Route.notesDelete "aaaaaaaaaaaaaaaaaaaaaaaa", some "Bearer tok"⟩
        ⟨[[("_id", BVal.oid ⟨"aaaaaaaaaaaaaaaaaaaaaaaa"⟩), ("userId", BVal.str "u1")]],
         [[("_id", BVal.oid ⟨"aaaaaaaaaaaaaaaaaaaaaaaa"⟩), ("userId", BVal.str "u1")]],
         7⟩ true =
      ⟨⟨200, RespBody.message "Note deleted"⟩,
       ⟨[], [[("_id", BVal.oid ⟨"aaaaaaaaaaaaaaaaaaaaaaaa"⟩), ("userId", BVal.str "u1")]],
        7⟩, 1⟩ :=
  ((c8_delete_twice_success_then_404
    (fun t => if t = "tok" then some "u1" else none) "Bearer tok" "u1"
    "aaaaaaaaaaaaaaaaaaaaaaaa" ⟨"aaaaaaaaaaaaaaaaaaaaaaaa"⟩
    ⟨[[("_id", BVal.oid ⟨"aaaaaaaaaaaaaaaaaaaaaaaa"⟩), ("userId", BVal.str "u1")]],
     [[("_id", BVal.oid ⟨"aaaaaaaaaaaaaaaaaaaaaaaa"⟩), ("userId", BVal.str "u1")]],
     7⟩ (by decide) (by decide) (by decide) (by decide) (by decide)).1).1

/-- C9 counterexample: the create succeeds with the body-supplied identifier
`"zzz"` as `insertedId`, but the immediate get-by-id with that returned
identifier by the same owner answers 400 (the id does not parse as an
ObjectId), not a successful 200. -/
theorem c9_counterexample_roundtrip_breaks_on_body_id :
    (handle (fun t => if t = "tok" then some "u1" else none)
        ⟨Route.notesCreate [("_id", BVal.str "zzz"), ("title", BVal.str "A")],
         some "Bearer tok"⟩ ⟨[], [], 0⟩ true).resp =
      ⟨201, RespBody.insertAck (BVal.str "zzz")⟩ ∧
    (handle (fun t => if t = "tok" then some "u1" else none)
        ⟨Route.notesGet "zzz", some "Bearer tok"⟩
        (handle (fun t => if t = "tok" then some "u1" else none)
          ⟨Route.notesCreate [("_id", BVal.str "zzz"), ("title", BVal.str "A")],
           some "Bearer tok"⟩ ⟨[], [], 0⟩ true).st true).resp =
      ⟨400, RespBody.message "Invalid note ID"⟩ ∧
    ¬((handle (fun t => if t = "tok" then some "u1" else none)
        ⟨Route.notesGet "zzz", some "Bearer tok"⟩
        (handle (fun t => if t = "tok" then some "u1" else none)
          ⟨Route.notesCreate [("_id", BVal.str "zzz"), ("title", BVal.str "A")],
           some "Bearer tok"⟩ ⟨[], [], 0⟩ true).st true).resp.status = 200) := by
  decide

/-- C9 amended: for a body with no `_id` field, and a store whose documents
do not already use the identifier the driver will generate, create followed
by get-by-id with the generated identifier's canonical string, by the same
owner, answers 200 with exactly the stored document: the body's fields,
plus the assigned `_id` and the verified owner in `userId`. -/
theorem c9_create_then_get_roundtrip
    (verify : String → Option String) (hdr uid : String) (st : St) (body : Doc)
    (hpre : strStartsWith hdr "Bearer " = true)
    (hver : verify ((jsSplitSpace hdr).getD 1 "") = some uid)
    (hbody : dGet body "_id" = none)
    (hfresh : ∀ d ∈ st.notes, dGet d "_id" ≠ some (BVal.oid (genId st.counter))) :
    handle verify ⟨Route.notesCreate body, some hdr⟩ st true =
      ⟨⟨201, RespBody.insertAck (BVal.oid (genId st.counter))⟩,
       { st with
           notes := st.notes ++
             [setKey (setKey body "userId" (BVal.str uid)) "_id"
               (BVal.oid (genId st.counter))],
           counter := st.counter + 1 }, 1⟩ ∧
    handle verify ⟨Route.notesGet (genId st.counter).hex, some hdr⟩
        { st with
            notes := st.notes ++
              [setKey (setKey body "userId" (BVal.str uid)) "_id"
                (BVal.oid (genId st.counter))],
            counter := st.counter + 1 } true =
      ⟨⟨200, RespBody.doc (setKey (setKey body "userId" (BVal.str uid)) "_id"
          (BVal.oid (genId st.counter)))⟩,
       { st with
           notes := st.notes ++
             [setKey (setKey body "userId" (BVal.str uid)) "_id"
               (BVal.oid (genId st.counter))],
           counter := st.counter + 1 }, 1⟩ ∧
    dGet (setKey (setKey body "userId" (BVal.str uid)) "_id"
        (BVal.oid (genId st.counter))) "_id" = some (BVal.oid (genId st.counter)) ∧
    dGet (setKey (setKey body "userId" (BVal.str uid)) "_id"
        (BVal.oid (genId st.counter))) "userId" = some (BVal.str uid) ∧
    (∀ k, k ≠ "_id" → k ≠ "userId" →
      dGet (setKey (setKey body "userId" (BVal.str uid)) "_id"
        (BVal.oid (genId st.counter))) k = dGet body k) := by
  have hver2 : verify ((jsSplitSpace hdr)[1]?.getD "") = some uid := by
    simpa [List.getD] using hver
  have hauth : authenticateFirebaseToken verify (some hdr) = AuthResult.ok uid := by
    simp [authenticateFirebaseToken, hpre, hver2]
  have hnid : dGet (setKey body "userId" (BVal.str uid)) "_id" = none := by
    rw [dGet_setKey_other _ _ _ _ (by decide : ("_id" : String) ≠ "userId"), hbody]
  have hdid : dGet (setKey (setKey body "userId" (BVal.str uid)) "_id"
      (BVal.oid (genId st.counter))) "_id" = some (BVal.oid (genId st.counter)) :=
    dGet_setKey_same _ _ _
  have hduid : dGet (setKey (setKey body "userId" (BVal.str uid)) "_id"
      (BVal.oid (genId st.counter))) "userId" = some (BVal.str uid) := by
    rw [dGet_setKey_other _ _ _ _ (by decide : ("userId" : String) ≠ "_id"),
      dGet_setKey_same]
  refine ⟨?_, ?_, hdid, hduid, ?_⟩
  · simp [handle, hauth, dispatch, notesCreateHandler, insertAssign, hnid]
  · have hold : ∀ d ∈ st.notes, fMatch ⟨some (genId st.counter), some uid⟩ d = false := by
      intro d hd
      have := hfresh d hd
      simp [fMatch, this]
    have hnew : fMatch ⟨some (genId st.counter), some uid⟩
        (setKey (setKey body "userId" (BVal.str uid)) "_id"
          (BVal.oid (genId st.counter))) = true := by
      simp [fMatch, hdid, hduid]
    have hfind : findOne (st.notes ++
        [setKey (setKey body "userId" (BVal.str uid)) "_id"
          (BVal.oid (genId st.counter))]) ⟨some (genId st.counter), some uid⟩ =
        some (setKey (setKey body "userId" (BVal.str uid)) "_id"
          (BVal.oid (genId st.counter))) := by
      rw [findOne_append, findOne_eq_none _ _ hold]
      simp [findOne, hnew]
    simp [handle, hauth, dispatch, notesGetHandler, parse_genId st.counter, hfind]
  · intro k hk1 hk2
    rw [dGet_setKey_other _ _ _ _ hk1, dGet_setKey_other _ _ _ _ hk2]

/-- Concrete instance of `c9_create_then_get_roundtrip` on the empty store:
the generated identifier's canonical string retrieves exactly the stored
document. -/
theorem c9_witness :
    handle (fun t => if t = "tok" then some "u1" else none)
        ⟨Route.notesGet (genId 0).hex, some "Bearer tok"⟩
        ⟨[setKey (setKey [("title", BVal.str "A")] "userId" (BVal.str "u1")) "_id"
            (BVal.oid (genId 0))], [], 1⟩ true =
      ⟨⟨200, RespBody.doc (setKey (setKey [("title", BVal.str "A")] "userId"
          (BVal.str "u1")) "_id" (BVal.oid (genId 0)))⟩,
       ⟨[setKey (setKey [("title", BVal.str "A")] "userId" (BVal.str "u1")) "_id"
           (BVal.oid (genId 0))], [], 1⟩, 1⟩ :=
  (c9_create_then_get_roundtrip
    (fun t => if t = "tok" then some "u1" else none) "Bearer tok" "u1"
    ⟨[], [], 0⟩ [("title", BVal.str "A")] (by decide) (by decide) (by decide)
    (by intro d hd; exact absurd hd (List.not_mem_nil d))).2.1

/-- C10: in the `src/index.js` entry point, `GET /notes`, `GET /notes/:id`
and `GET /folders` run with no authentication middleware and query the store
with no owner constraint: for every store state, `GET /notes` returns every
note, `GET /notes/:id` returns the first note matching the id with no
condition on its `userId`, `GET /folders` returns every folder, and every
response is independent of the authorization header. -/
theorem c10_open_server_unauthenticated_unscoped (st : St) :
    (∀ a, handleOpen ⟨Route.notesList, a⟩ st true =
      ⟨⟨200, RespBody.docs st.notes⟩, st, 1⟩) ∧
    (∀ a idStr o d, parseObjectId idStr = some o →
      findOne st.notes ⟨some o, none⟩ = some d →
      handleOpen ⟨Route.notesGet idStr, a⟩ st true =
        ⟨⟨200, RespBody.doc d⟩, st, 1⟩) ∧
    (∀ a, handleOpen ⟨Route.foldersList, a⟩ st true =
      ⟨⟨200, RespBody.docs st.folders⟩, st, 1⟩) ∧
    (∀ r a1 a2 ok, handleOpen ⟨r, a1⟩ st ok = handleOpen ⟨r, a2⟩ st ok) := by
  refine ⟨?_, ?_, ?_, ?_⟩
  · intro a
    simp [handleOpen, findMany_no_filter]
  · intro a idStr o d h1 h2
    simp [handleOpen, h1, h2]
  · intro a
    simp [handleOpen, findMany_no_filter]
  · intro r a1 a2 ok
    cases r <;> rfl

/-- Concrete instance of `c10_open_server_unauthenticated_unscoped`: with no
credential at all, the open server returns a note owned by `owner1`. -/
theorem c10_witness :
    handleOpen ⟨Route.notesGet "aaaaaaaaaaaaaaaaaaaaaaaa", none⟩
        ⟨[[("_id", BVal.oid ⟨"aaaaaaaaaaaaaaaaaaaaaaaa"⟩), ("userId", BVal.str "owner1")]],
         [], 0⟩ true =
      ⟨⟨200, RespBody.doc [("_id", BVal.oid ⟨"aaaaaaaaaaaaaaaaaaaaaaaa"⟩),
          ("userId", BVal.str "owner1")]⟩,
       ⟨[[("_id", BVal.oid ⟨"aaaaaaaaaaaaaaaaaaaaaaaa"⟩), ("userId", BVal.str "owner1")]],
        [], 0⟩, 1⟩ :=
  (c10_open_server_unauthenticated_unscoped
    ⟨[[("_id", BVal.oid ⟨"aaaaaaaaaaaaaaaaaaaaaaaa"⟩), ("userId", BVal.str "owner1")]],
     [], 0⟩).2.1 none "aaaaaaaaaaaaaaaaaaaaaaaa" ⟨"aaaaaaaaaaaaaaaaaaaaaaaa"⟩
    [("_id", BVal.oid ⟨"aaaaaaaaaaaaaaaaaaaaaaaa"⟩), ("userId", BVal.str "owner1")]
    (by decide) (by decide)

end NoteBook
